import Mathlib

/-!
Verification of the ProfitLens profit aggregation engine.

The JavaScript source is shallowly embedded in Lean: JS numbers are
modelled as rationals (ℚ), Number.prototype.toFixed is modelled as
round-half-away-from-zero rendering, JS objects used as keyed maps are
modelled as insertion-ordered association lists, and fallible external
fetches are modelled with Except.  parseFloat applied to a toFixed(2)
string is modelled as rounding the underlying value to 2 fraction
digits (toFixed strings round-trip exactly at this idealisation).
-/

namespace ProfitLens

/-- Floor of a non-negative rational, as integer division of numerator
by denominator (exact for non-negative arguments). -/
def ratFloorNonneg (q : ℚ) : ℤ := q.num / (q.den : ℤ)

/-- Round a rational to the nearest integer, ties away from zero.
This is the rounding used by JS toFixed on exactly-representable
values. -/
def roundAway (q : ℚ) : ℤ :=
  if 0 ≤ q then ratFloorNonneg (q + 1/2) else - ratFloorNonneg (-q + 1/2)

/-- Round a rational to d fraction digits (value-level toFixed followed
by parseFloat). -/
def roundTo (d : ℕ) (q : ℚ) : ℚ := (roundAway (q * (10 ^ d : ℚ)) : ℚ) / (10 ^ d : ℚ)

/-- Round to 2 fraction digits: parseFloat(x.toFixed(2)). -/
def round2 (q : ℚ) : ℚ := roundTo 2 q

/-- Left-pad a string with zeros to the given length. -/
def padZeros (d : ℕ) (s : String) : String :=
  String.mk (List.replicate (d - s.length) '0') ++ s

/-- Render a rational as JS Number.prototype.toFixed(d): round half
away from zero at d fraction digits and print with exactly d fraction
digits (no fraction part when d = 0). -/
def toFixedQ (d : ℕ) (q : ℚ) : String :=
  let n : ℤ := roundAway (q * (10 ^ d : ℚ))
  let sign : String := if n < 0 then "-" else ""
  let a : ℕ := n.natAbs
  if d = 0 then sign ++ toString a
  else sign ++ toString (a / 10 ^ d) ++ "." ++ padZeros d (toString (a % 10 ^ d))

/-- Number of characters after the first dot of a rendered decimal
string (0 when there is no dot). -/
def fracDigitCount (s : String) : ℕ :=
  ((s.toList.dropWhile fun c => c ≠ '.').drop 1).length

/-- JS truthiness default for optional strings:
a || dflt, where the empty string is falsy. -/
def jsOrStr (a : Option String) (dflt : String) : String :=
  match a with
  | some s => if s = "" then dflt else s
  | none => dflt

/-! ## Gateway fees (src/costs/gatewayFees.js and src/config.js) -/

/-- Fee model of a payment gateway: percentage plus fixed amount. -/
structure FeeRate where
  percentage : ℚ
  fixed : ℚ
deriving DecidableEq

/-- Static gateway fee table from getConfig().gatewayFees. -/
def gatewayFees (g : String) : Option FeeRate :=
  if g = "shopify_payments" then some ⟨29/1000, 30/100⟩
  else if g = "stripe" then some ⟨29/1000, 30/100⟩
  else if g = "paypal" then some ⟨349/10000, 49/100⟩
  else if g = "mercadopago" then some ⟨499/10000, 0⟩
  else none

/-- gateway.toLowerCase().replace(non-letters, empty): lower-case every
character and keep only the letters a-z. -/
def stripName (s : String) : String :=
  String.mk ((s.toList.map Char.toLower).filter fun c => 'a' ≤ c && c ≤ 'z')

/-- The known-alias object literal in normalizeGatewayName, as a lookup. -/
def gatewayAlias (s : String) : Option String :=
  if s = "shopifypayments" then some "shopify_payments"
  else if s = "shopify_payments" then some "shopify_payments"
  else if s = "stripe" then some "stripe"
  else if s = "paypal" then some "paypal"
  else if s = "paypalexpress" then some "paypal"
  else if s = "paypalcommerce" then some "paypal"
  else if s = "mercadopago" then some "mercadopago"
  else if s = "mercadopagobasic" then some "mercadopago"
  else none

/-- normalizeGatewayName: empty input is falsy and yields "unknown";
otherwise look up the stripped lower-cased name among the known
aliases, defaulting to "shopify_payments". -/
def normalizeGatewayName (gateway : String) : String :=
  if gateway = "" then "unknown"
  else (gatewayAlias (stripName gateway)).getD "shopify_payments"

/-- getGatewayFees: fee model of the normalized gateway, defaulting to
percentage 0.029 and fixed 0.30. -/
def getGatewayFees (gateway : String) : FeeRate :=
  (gatewayFees (normalizeGatewayName gateway)).getD ⟨29/1000, 30/100⟩

/-- calculateOrderFee: total times percentage plus fixed, rounded to
2 fraction digits per order. -/
def calculateOrderFee (orderTotal : ℚ) (gateway : String) : ℚ :=
  let r := getGatewayFees gateway
  round2 (orderTotal * r.percentage + r.fixed)

/-! ## Orders (src/shopify/orders.js) -/

/-- A Shopify order line item as consumed by the engine (string amounts
already parsed to rationals). -/
structure OrderLineItem where
  variant_id : Option ℕ
  product_id : Option ℕ
  sku : String
  title : String
  quantity : ℕ
  price : ℚ
deriving DecidableEq

/-- A Shopify order as consumed by the engine. -/
structure Order where
  id : ℕ
  total_price : ℚ
  total_tax : ℚ
  total_shipping : ℚ
  total_discounts : ℚ
  gateway : Option String
  payment_gateway_names : List String
  line_items : List OrderLineItem
deriving DecidableEq

/-- Running total of order.total_price over the metrics loop. -/
def sumTotalPrice (orders : List Order) : ℚ :=
  orders.foldl (fun a o => a + o.total_price) 0

/-- Running total of order.total_tax over the metrics loop. -/
def sumTotalTax (orders : List Order) : ℚ :=
  orders.foldl (fun a o => a + o.total_tax) 0

/-- Running total of shipping over the metrics loop. -/
def sumTotalShipping (orders : List Order) : ℚ :=
  orders.foldl (fun a o => a + o.total_shipping) 0

/-- Running total of order.total_discounts over the metrics loop. -/
def sumTotalDiscounts (orders : List Order) : ℚ :=
  orders.foldl (fun a o => a + o.total_discounts) 0

/-- Nested loop of calculateOrderMetrics: itemsSold accumulates
item.quantity over every line item of every order. -/
def itemsSoldOf (orders : List Order) : ℕ :=
  orders.foldl (fun a o => o.line_items.foldl (fun b i => b + i.quantity) a) 0

/-- Result object of calculateOrderMetrics. -/
structure OrderMetrics where
  orderCount : ℕ
  totalRevenue : String
  totalTax : String
  totalShipping : String
  totalDiscounts : String
  itemsSold : ℕ
  averageOrderValue : String
deriving DecidableEq

/-- calculateOrderMetrics: sums price, tax, shipping and discounts over
the orders, counts orders and items, and renders the totals with
toFixed(2); averageOrderValue is "0.00" when there are no orders. -/
def calculateOrderMetrics (orders : List Order) : OrderMetrics :=
  { orderCount := orders.length
    totalRevenue := toFixedQ 2 (sumTotalPrice orders)
    totalTax := toFixedQ 2 (sumTotalTax orders)
    totalShipping := toFixedQ 2 (sumTotalShipping orders)
    totalDiscounts := toFixedQ 2 (sumTotalDiscounts orders)
    itemsSold := itemsSoldOf orders
    averageOrderValue :=
      if 0 < orders.length then toFixedQ 2 (sumTotalPrice orders / (orders.length : ℚ))
      else "0.00" }

/-- A flattened line-item record produced by extractLineItems. -/
structure LineItemRec where
  orderId : ℕ
  variantId : Option ℕ
  productId : Option ℕ
  sku : String
  title : String
  quantity : ℕ
  price : ℚ
  totalPrice : ℚ
deriving DecidableEq

/-- extractLineItems: one record per line item of every order, in order
(totalPrice uses quantity or 1 when the quantity is 0, per the JS
item.quantity or 1 default). -/
def extractLineItems (orders : List Order) : List LineItemRec :=
  orders.foldl (fun acc o =>
    acc ++ o.line_items.map fun i =>
      { orderId := o.id, variantId := i.variant_id, productId := i.product_id,
        sku := i.sku, title := i.title, quantity := i.quantity, price := i.price,
        totalPrice := i.price * (if i.quantity = 0 then 1 else (i.quantity : ℚ)) }) []

/-! ## COGS matching (step 2 of calculateProfit) -/

/-- The COGS lookup map from getCogsMap, keyed by variant id (the
Firestore document ids are the decimal strings of the variant ids,
modelled here by the ids themselves). -/
def CogsMap := List (ℕ × ℚ)

/-- cogsMap lookup of the JS loop body:
cogsMap of the variant id, or 0 when the id is absent (or the line item
has no variant id at all). -/
def itemCogsOf (cogsMap : CogsMap) (i : LineItemRec) : ℚ :=
  match i.variantId with
  | none => 0
  | some v => (List.lookup v cogsMap).getD 0

/-- One iteration of the COGS loop over (totalCogs, matched, missing):
a strictly positive looked-up cost accumulates cost times quantity and
counts as matched, anything else counts as missing. -/
def cogsScanStep (cogsMap : CogsMap) (acc : ℚ × ℕ × ℕ) (i : LineItemRec) : ℚ × ℕ × ℕ :=
  let itemCogs := itemCogsOf cogsMap i
  if 0 < itemCogs then (acc.1 + itemCogs * (i.quantity : ℚ), acc.2.1 + 1, acc.2.2)
  else (acc.1, acc.2.1, acc.2.2 + 1)

/-- The COGS loop of calculateProfit: fold over the flattened line
items, producing (totalCogs, cogsMatchedItems, cogsMissingItems). -/
def cogsScan (cogsMap : CogsMap) (items : List LineItemRec) : ℚ × ℕ × ℕ :=
  items.foldl (cogsScanStep cogsMap) (0, 0, 0)

/-! ## Ad spend (step 3 of calculateProfit) -/

/-- A daily ad-spend document already scoped to the target date. -/
structure AdSpendEntry where
  platform : String
  spend : ℚ
deriving DecidableEq

/-- JS object assignment obj[k] = v on an insertion-ordered map: an
existing key keeps its position and is overwritten, a new key is
appended. -/
def assocSet {α : Type} (m : List (String × α)) (k : String) (v : α) : List (String × α) :=
  match m with
  | [] => [(k, v)]
  | (k', v') :: rest => if k' = k then (k, v) :: rest else (k', v') :: assocSet rest k v

/-- JS object read obj[k] on an insertion-ordered map. -/
def assocGet {α : Type} (m : List (String × α)) (k : String) : Option α :=
  match m with
  | [] => none
  | (k', v) :: rest => if k' = k then some v else assocGet rest k

/-- The ad-spend loop: builds adSpendByPlatform (last write per
platform wins) and accumulates totalAdSpend. -/
def adSpendFold (entries : List AdSpendEntry) : List (String × ℚ) × ℚ :=
  entries.foldl (fun acc e => (assocSet acc.1 e.platform e.spend, acc.2 + e.spend)) ([], 0)

/-! ## Total fees (calculateTotalFees in src/costs/gatewayFees.js) -/

/-- Per-gateway entry of the fee breakdown object. -/
structure GatewayBreakdownEntry where
  count : ℕ
  orderTotal : ℚ
  fees : ℚ
deriving DecidableEq

/-- The gateway chosen per order:
order.gateway, else first payment gateway name, else shopify_payments
(empty strings are falsy). -/
def orderGatewayOf (o : Order) : String :=
  jsOrStr o.gateway (jsOrStr o.payment_gateway_names.head? "shopify_payments")

/-- One iteration of the calculateTotalFees loop over the running
(breakdown, totalFees) pair. -/
def feeStep (acc : List (String × GatewayBreakdownEntry) × ℚ) (o : Order) :
    List (String × GatewayBreakdownEntry) × ℚ :=
  let gateway := orderGatewayOf o
  let orderTotal := o.total_price
  let fee := calculateOrderFee orderTotal gateway
  let ng := normalizeGatewayName gateway
  let cur := (assocGet acc.1 ng).getD ⟨0, 0, 0⟩
  (assocSet acc.1 ng ⟨cur.count + 1, cur.orderTotal + orderTotal, cur.fees + fee⟩,
   acc.2 + fee)

/-- calculateTotalFees: per-order fees summed at full precision with a
per-normalized-gateway breakdown; only the final totalFees and the
final breakdown orderTotal and fees values are rounded. -/
def calculateTotalFees (orders : List Order) :
    ℚ × List (String × GatewayBreakdownEntry) :=
  let r := orders.foldl feeStep ([], 0)
  (round2 r.2, r.1.map fun e => (e.1, ⟨e.2.count, round2 e.2.orderTotal, round2 e.2.fees⟩))

/-! ## Fixed costs (src/costs/fixedCosts.js) -/

/-- A fixed-cost document. -/
structure FixedCostEntry where
  description : String
  amount : ℚ
  frequency : String
  active : Bool
deriving DecidableEq

/-- Totals object returned by calculateTotals. -/
structure CostTotals where
  daily : ℚ
  monthly : ℚ
  yearly : ℚ
deriving DecidableEq

/-- One iteration of the calculateTotals loop: inactive entries are
skipped, the switch converts by frequency (4.33 weeks per month), and
an unknown frequency adds nothing. -/
def costStep (acc : ℚ × ℚ × ℚ) (cost : FixedCostEntry) : ℚ × ℚ × ℚ :=
  if cost.active = false then acc
  else
    let amount := cost.amount
    if cost.frequency = "daily" then
      (acc.1 + amount, acc.2.1 + amount * 30, acc.2.2 + amount * 365)
    else if cost.frequency = "weekly" then
      (acc.1 + amount / 7, acc.2.1 + amount * (433/100), acc.2.2 + amount * 52)
    else if cost.frequency = "monthly" then
      (acc.1 + amount / 30, acc.2.1 + amount, acc.2.2 + amount * 12)
    else if cost.frequency = "yearly" then
      (acc.1 + amount / 365, acc.2.1 + amount / 12, acc.2.2 + amount)
    else acc

/-- calculateTotals: sum the per-frequency conversions across entries
at full precision, then round each of the three totals to 2 fraction
digits at the end (parseFloat of toFixed(2)). -/
def calculateTotals (costs : List FixedCostEntry) : CostTotals :=
  let t := costs.foldl costStep (0, 0, 0)
  ⟨round2 t.1, round2 t.2.1, round2 t.2.2⟩

/-- getDailyFixedCost: daily total of the active fixed-cost documents
(the Firestore query pre-filters active == true). -/
def getDailyFixedCost (costs : List FixedCostEntry) : ℚ :=
  (calculateTotals (costs.filter fun c => c.active)).daily

/-! ## Alerts (generateAlerts in src/profit/calculator.js) -/

/-- An alert record. -/
structure Alert where
  type : String
  message : String
  action : String
deriving DecidableEq

/-- The alert pushed when profitMargin is negative. -/
def losingMoneyAlert : Alert :=
  ⟨"error", "You are losing money today", "Review your costs and pricing strategy"⟩

/-- The metrics object handed to generateAlerts. -/
structure AlertMetrics where
  cogsMissingItems : ℕ
  cogsMatchedItems : ℕ
  lineItems : ℕ
  profitMargin : ℚ
  adSpend : ℚ
  revenue : ℚ
deriving DecidableEq

/-- generateAlerts: COGS coverage below 50 percent, negative profit
margin, ad spend above 30 percent of revenue, and margin between 0 and
10, pushed in that order. -/
def generateAlerts (m : AlertMetrics) : List Alert :=
  (if 0 < m.lineItems ∧ (m.cogsMatchedItems : ℚ) / (m.lineItems : ℚ) * 100 < 50 then
    [⟨"warning",
      "Only " ++ toFixedQ 0 ((m.cogsMatchedItems : ℚ) / (m.lineItems : ℚ) * 100)
        ++ "% of products have COGS configured",
      "Add product costs for accurate profit calculation"⟩]
   else [])
  ++ (if m.profitMargin < 0 then [losingMoneyAlert] else [])
  ++ (if 0 < m.revenue ∧ 30 < m.adSpend / m.revenue * 100 then
    [⟨"warning",
      "Ad spend is " ++ toFixedQ 0 (m.adSpend / m.revenue * 100) ++ "% of revenue",
      "Consider optimizing your ad campaigns"⟩]
   else [])
  ++ (if 0 < m.profitMargin ∧ m.profitMargin < 10 then
    [⟨"info", "Profit margin is below 10%",
      "Consider increasing prices or reducing costs"⟩]
   else [])

/-! ## Daily profit calculation (calculateProfit steps 1 to 7) -/

/-- The revenue local of step 6: parseFloat of the toFixed(2) revenue
string of the order metrics, i.e. the order total sum rounded to 2
fraction digits. -/
def revenueOf (orders : List Order) : ℚ := round2 (sumTotalPrice orders)

/-- totalCogs local of step 2. -/
def totalCogsOf (orders : List Order) (cogsMap : CogsMap) : ℚ :=
  (cogsScan cogsMap (extractLineItems orders)).1

/-- cogsMatchedItems local of step 2. -/
def cogsMatchedOf (orders : List Order) (cogsMap : CogsMap) : ℕ :=
  (cogsScan cogsMap (extractLineItems orders)).2.1

/-- cogsMissingItems local of step 2. -/
def cogsMissingOf (orders : List Order) (cogsMap : CogsMap) : ℕ :=
  (cogsScan cogsMap (extractLineItems orders)).2.2

/-- totalAdSpend local of step 3. -/
def totalAdSpendOf (adEntries : List AdSpendEntry) : ℚ := (adSpendFold adEntries).2

/-- totalFees local of step 4. -/
def totalFeesOf (orders : List Order) : ℚ := (calculateTotalFees orders).1

/-- grossProfit local of step 6: revenue minus totalCogs. -/
def grossProfitOf (orders : List Order) (cogsMap : CogsMap) : ℚ :=
  revenueOf orders - totalCogsOf orders cogsMap

/-- netProfit local of step 6: grossProfit minus totalAdSpend minus
totalFees minus dailyFixedCosts. -/
def netProfitOf (orders : List Order) (cogsMap : CogsMap)
    (adEntries : List AdSpendEntry) (fixedEntries : List FixedCostEntry) : ℚ :=
  grossProfitOf orders cogsMap - totalAdSpendOf adEntries - totalFeesOf orders
    - getDailyFixedCost fixedEntries

/-- profitMargin local of step 6: netProfit over revenue times 100 when
revenue is positive, else 0. -/
def profitMarginOf (orders : List Order) (cogsMap : CogsMap)
    (adEntries : List AdSpendEntry) (fixedEntries : List FixedCostEntry) : ℚ :=
  if 0 < revenueOf orders then
    netProfitOf orders cogsMap adEntries fixedEntries / revenueOf orders * 100
  else 0

/-- grossMargin local of step 6. -/
def grossMarginOf (orders : List Order) (cogsMap : CogsMap) : ℚ :=
  if 0 < revenueOf orders then grossProfitOf orders cogsMap / revenueOf orders * 100
  else 0

/-- The result object of calculateProfit (the ProfitReport). -/
structure ProfitReport where
  date : String
  currency : String
  revenue : String
  orderCount : ℕ
  itemsSold : ℕ
  averageOrderValue : String
  cogs : String
  cogsMatchRate : String
  adSpend : String
  adSpendByPlatform : List (String × ℚ)
  fees : String
  feeBreakdown : List (String × GatewayBreakdownEntry)
  fixedCosts : String
  grossProfit : String
  grossMargin : String
  netProfit : String
  profitMargin : String
  isProfitable : Bool
  alerts : List Alert
deriving DecidableEq

/-- Steps 1 to 7 of calculateProfit: a pure function of the target
date, shop currency, orders, COGS lookup, ad-spend entries and
fixed-cost entries. -/
def calculateProfit (targetDate : String) (shopCurrency : Option String)
    (orders : List Order) (cogsMap : CogsMap)
    (adEntries : List AdSpendEntry) (fixedEntries : List FixedCostEntry) :
    ProfitReport :=
  let orderMetrics := calculateOrderMetrics orders
  let lineItems := extractLineItems orders
  let adFold := adSpendFold adEntries
  let feesResult := calculateTotalFees orders
  { date := targetDate
    currency := jsOrStr shopCurrency "USD"
    revenue := toFixedQ 2 (revenueOf orders)
    orderCount := orders.length
    itemsSold := orderMetrics.itemsSold
    averageOrderValue := orderMetrics.averageOrderValue
    cogs := toFixedQ 2 (totalCogsOf orders cogsMap)
    cogsMatchRate :=
      if 0 < lineItems.length then
        toFixedQ 1 ((cogsMatchedOf orders cogsMap : ℚ) / (lineItems.length : ℚ) * 100)
      else "100"
    adSpend := toFixedQ 2 (totalAdSpendOf adEntries)
    adSpendByPlatform := adFold.1
    fees := toFixedQ 2 (totalFeesOf orders)
    feeBreakdown := feesResult.2
    fixedCosts := toFixedQ 2 (getDailyFixedCost fixedEntries)
    grossProfit := toFixedQ 2 (grossProfitOf orders cogsMap)
    grossMargin := toFixedQ 1 (grossMarginOf orders cogsMap)
    netProfit := toFixedQ 2 (netProfitOf orders cogsMap adEntries fixedEntries)
    profitMargin := toFixedQ 1 (profitMarginOf orders cogsMap adEntries fixedEntries)
    isProfitable := decide (0 ≤ netProfitOf orders cogsMap adEntries fixedEntries)
    alerts := generateAlerts
      ⟨cogsMissingOf orders cogsMap, cogsMatchedOf orders cogsMap, lineItems.length,
       profitMarginOf orders cogsMap adEntries fixedEntries,
       totalAdSpendOf adEntries, revenueOf orders⟩ }

/-! ## Fetch failures and the daily-report store (step 8 and the
surrounding try/catch of calculateProfit) -/

/-- The per-shop dailyMetrics store, keyed by date. -/
def Store := List (String × ProfitReport)

/-- Merge-upsert of the report document keyed by its date. -/
def storePut (store : Store) (date : String) (r : ProfitReport) : Store :=
  assocSet store date r

/-- Read of the report document for a date. -/
def storeGet (store : Store) (date : String) : Option ProfitReport :=
  assocGet store date

/-- calculateProfit including the awaited fetches and the cache write:
a rejected orders fetch or COGS fetch propagates to the catch block,
which rethrows a computation error; only a fully computed report is
written to the store. -/
def runCalculateProfit (targetDate : String) (shopCurrency : Option String)
    (ordersRes : Except String (List Order)) (cogsRes : Except String CogsMap)
    (adEntries : List AdSpendEntry) (fixedEntries : List FixedCostEntry)
    (store : Store) : Except String ProfitReport × Store :=
  match ordersRes with
  | .error e => (.error ("Calculation failed: " ++ e), store)
  | .ok orders =>
    match cogsRes with
    | .error e => (.error ("Calculation failed: " ++ e), store)
    | .ok cogsMap =>
      let result := calculateProfit targetDate shopCurrency orders cogsMap
        adEntries fixedEntries
      (.ok result, storePut store targetDate result)

/-! ## Date validation (isValidDate in src/utils/validators.js) -/

/-- Gregorian leap-year rule, as used by the JS Date object. -/
def isLeapYear (y : ℕ) : Bool :=
  (y % 4 = 0 && y % 100 ≠ 0) || y % 400 = 0

/-- Days in a month of a year, as used by the JS Date object. -/
def daysInMonth (y m : ℕ) : ℕ :=
  if m = 2 then (if isLeapYear y then 29 else 28)
  else if m = 4 || m = 6 || m = 9 || m = 11 then 30
  else 31

/-- Decimal value of a digit character. -/
def digitVal (c : Char) : ℕ := c.toNat - '0'.toNat

/-- isValidDate: the string must match the regex of four digits, a
dash, two digits, a dash and two digits, and new Date(s) on such an
ISO string is valid exactly when the month is 1..12 and the day is
1..daysInMonth. -/
def isValidDate (s : String) : Bool :=
  match s.toList with
  | [y1, y2, y3, y4, h1, mo1, mo2, h2, d1, d2] =>
    ([y1, y2, y3, y4, mo1, mo2, d1, d2].all Char.isDigit) && h1 = '-' && h2 = '-' &&
      (let y := ((digitVal y1 * 10 + digitVal y2) * 10 + digitVal y3) * 10 + digitVal y4
       let mo := digitVal mo1 * 10 + digitVal mo2
       let d := digitVal d1 * 10 + digitVal d2
       1 ≤ mo && mo ≤ 12 && 1 ≤ d && d ≤ daysInMonth y mo)
  | _ => false

/-! ## Range aggregation (calculateProfitRange) -/

/-- Lexicographic order on character lists by code point, the order the
document store uses for its date-keyed range queries. -/
def charListLe : List Char → List Char → Bool
  | [], _ => true
  | _ :: _, [] => false
  | a :: as, b :: bs =>
    if a.toNat < b.toNat then true
    else if b.toNat < a.toNat then false
    else charListLe as bs

/-- Lexicographic string comparison used by the date range query. -/
def strLe (a b : String) : Bool := charListLe a.toList b.toList

/-- A stored daily report as read back by the range query: the decimal
string fields are modelled by their parsed rational values (parseFloat
of a toFixed string recovers the value exactly at this idealisation). -/
structure DayRecord where
  date : String
  revenue : ℚ
  cogs : ℚ
  adSpend : ℚ
  fees : ℚ
  fixedCosts : ℚ
  netProfit : ℚ
  orderCount : ℕ
deriving DecidableEq

/-- The Firestore query of calculateProfitRange: stored daily reports
whose date lies in the inclusive window. -/
def queryDays (store : List DayRecord) (startDate endDate : String) : List DayRecord :=
  store.filter fun d => strLe startDate d.date && strLe d.date endDate

/-- Accumulator of the range totals loop. -/
structure RangeAcc where
  revenue : ℚ
  cogs : ℚ
  adSpend : ℚ
  fees : ℚ
  fixedCosts : ℚ
  netProfit : ℚ
  orderCount : ℕ
deriving DecidableEq

/-- One iteration of the range totals loop. -/
def rangeStep (acc : RangeAcc) (d : DayRecord) : RangeAcc :=
  ⟨acc.revenue + d.revenue, acc.cogs + d.cogs, acc.adSpend + d.adSpend,
   acc.fees + d.fees, acc.fixedCosts + d.fixedCosts, acc.netProfit + d.netProfit,
   acc.orderCount + d.orderCount⟩

/-- The totals object of the range response. -/
structure RangeTotals where
  revenue : String
  cogs : String
  adSpend : String
  fees : String
  fixedCosts : String
  netProfit : String
  profitMargin : String
  orderCount : ℕ
  isProfitable : Bool
deriving DecidableEq

/-- The range response. -/
structure RangeResult where
  startDate : String
  endDate : String
  daysCount : ℕ
  days : List DayRecord
  totals : RangeTotals
deriving DecidableEq

/-- calculateProfitRange: reject malformed dates, then fold the stored
daily reports inside the inclusive window, recompute the profit margin
from the summed totals, and render the totals (margin with
toFixed(1)). -/
def calculateProfitRange (startDate endDate : String) (store : List DayRecord) :
    Except String RangeResult :=
  if !(isValidDate startDate) || !(isValidDate endDate) then
    .error "Invalid date format"
  else
    let days := queryDays store startDate endDate
    let t := days.foldl rangeStep ⟨0, 0, 0, 0, 0, 0, 0⟩
    let profitMargin := if 0 < t.revenue then t.netProfit / t.revenue * 100 else 0
    .ok { startDate := startDate, endDate := endDate,
          daysCount := days.length, days := days,
          totals :=
            ⟨toFixedQ 2 t.revenue, toFixedQ 2 t.cogs, toFixedQ 2 t.adSpend,
             toFixedQ 2 t.fees, toFixedQ 2 t.fixedCosts, toFixedQ 2 t.netProfit,
             toFixedQ 1 profitMargin, t.orderCount, decide (0 ≤ t.netProfit)⟩ }

/-! ## Concrete fixtures used by the theorems -/

/-- A single active monthly fixed cost of amount 300. -/
def monthlyRent300 : FixedCostEntry := ⟨"Rent", 300, "monthly", true⟩

/-- Two stored daily reports with revenue 100 and 200 and net profit
10 and -5 on consecutive dates. -/
def c3Store : List DayRecord :=
  [⟨"2024-01-01", 100, 0, 0, 0, 0, 10, 1⟩, ⟨"2024-01-02", 200, 0, 0, 0, 0, -5, 1⟩]

/-- A store with one daily report, used for the inverted-range check. -/
def c9Store : List DayRecord := [⟨"2024-01-02", 100, 0, 0, 0, 0, 10, 1⟩]

/-! ## Helper lemmas -/

/-- Every non-empty gateway name normalizes to one of the four
canonical gateways. -/
lemma normalizeGatewayName_mem (g : String) (hg : g ≠ "") :
    normalizeGatewayName g = "shopify_payments" ∨ normalizeGatewayName g = "stripe"
    ∨ normalizeGatewayName g = "paypal" ∨ normalizeGatewayName g = "mercadopago" := by
  unfold normalizeGatewayName
  rw [if_neg hg]
  unfold gatewayAlias
  split_ifs <;> simp

/-! ## C7 -/

/-- C7: for every order total and gateway name, the per-order fee is
total times percentage plus fixed for the gateway's fee model, rounded
to 2 fraction digits; the stripe model is 2.9 percent plus 0.30, and an
order of total 100 on stripe yields exactly 3.20. -/
theorem c7_order_fee :
    (∀ (total : ℚ) (g : String),
      calculateOrderFee total g
        = round2 (total * (getGatewayFees g).percentage + (getGatewayFees g).fixed))
    ∧ getGatewayFees "stripe" = ⟨29/1000, 30/100⟩
    ∧ calculateOrderFee 100 "stripe" = 16/5
    ∧ toFixedQ 2 (calculateOrderFee 100 "stripe") = "3.20" :=
  ⟨fun _ _ => rfl, by with_unfolding_all rfl, by with_unfolding_all rfl,
   by with_unfolding_all rfl⟩

/-! ## C8 -/

/-- C8 counterexample: the empty gateway name does not normalize to
shopify_payments; it normalizes to the "unknown" bucket. -/
theorem c8_empty_name_counterexample :
    normalizeGatewayName "" = "unknown"
    ∧ normalizeGatewayName "" ≠ "shopify_payments" := by
  constructor
  · rfl
  · decide

/-- C8 (amended): every NON-empty gateway name that is not one of the
known aliases normalizes to shopify_payments; the empty (absent) name
instead normalizes to the string "unknown". -/
theorem c8_unrecognized_defaults :
    (∀ g : String, g ≠ "" → gatewayAlias (stripName g) = none →
      normalizeGatewayName g = "shopify_payments")
    ∧ normalizeGatewayName "" = "unknown" := by
  constructor
  · intro g hg h
    unfold normalizeGatewayName
    rw [if_neg hg, h]
    rfl
  · rfl

/-- C8 witness: "bitcoin" is not an alias and normalizes to
shopify_payments. -/
theorem c8_witness : normalizeGatewayName "bitcoin" = "shopify_payments" :=
  c8_unrecognized_defaults.1 "bitcoin" (by decide) (by decide)

/-! ## C10 -/

/-- C10: gateway normalization is idempotent on non-empty names, and
each of the four canonical names normalizes to itself. -/
theorem c10_normalize_idempotent :
    (∀ g : String, g ≠ "" →
      normalizeGatewayName (normalizeGatewayName g) = normalizeGatewayName g)
    ∧ normalizeGatewayName "shopify_payments" = "shopify_payments"
    ∧ normalizeGatewayName "stripe" = "stripe"
    ∧ normalizeGatewayName "paypal" = "paypal"
    ∧ normalizeGatewayName "mercadopago" = "mercadopago" := by
  refine ⟨?_, by decide, by decide, by decide, by decide⟩
  intro g hg
  rcases normalizeGatewayName_mem g hg with h | h | h | h <;> rw [h] <;> decide

/-- C10 witness: idempotence at the concrete name "Visa". -/
theorem c10_witness :
    normalizeGatewayName (normalizeGatewayName "Visa") = normalizeGatewayName "Visa" :=
  c10_normalize_idempotent.1 "Visa" (by decide)

/-! ## C4 -/

/-- C4: when the orders fetch or the COGS fetch fails, the computation
returns a computation error (never an ok report) and the store is left
exactly as it was, so the previously stored report for every date is
unchanged. -/
theorem c4_fetch_failure_no_write :
    ∀ (date : String) (curr : Option String) (e : String)
      (cogsRes : Except String CogsMap) (ads : List AdSpendEntry)
      (fixedEntries : List FixedCostEntry) (store : Store),
      runCalculateProfit date curr (.error e) cogsRes ads fixedEntries store
        = (.error ("Calculation failed: " ++ e), store)
      ∧ (∀ orders : List Order,
          runCalculateProfit date curr (.ok orders) (.error e) ads fixedEntries store
            = (.error ("Calculation failed: " ++ e), store))
      ∧ (∀ d : String,
          storeGet (runCalculateProfit date curr (.error e) cogsRes ads
            fixedEntries store).2 d = storeGet store d)
      ∧ (∀ (orders : List Order) (d : String),
          storeGet (runCalculateProfit date curr (.ok orders) (.error e) ads
            fixedEntries store).2 d = storeGet store d) := by
  intro date curr e cogsRes ads fixedEntries store
  exact ⟨rfl, fun _ => rfl, fun _ => rfl, fun _ _ => rfl⟩

/-! ## C2 -/

/-- The profit margin of the report is negative exactly when the
revenue is positive and the net profit is negative (a zero-revenue day
has margin 0 by the revenue guard). -/
lemma profitMargin_neg_iff (orders : List Order) (cogsMap : CogsMap)
    (ads : List AdSpendEntry) (fixedEntries : List FixedCostEntry) :
    profitMarginOf orders cogsMap ads fixedEntries < 0
      ↔ 0 < revenueOf orders ∧ netProfitOf orders cogsMap ads fixedEntries < 0 := by
  unfold profitMarginOf
  split
  case isTrue h =>
    constructor
    · intro hm
      refine ⟨h, ?_⟩
      by_contra hn
      push_neg at hn
      have h1 : 0 ≤ netProfitOf orders cogsMap ads fixedEntries / revenueOf orders :=
        div_nonneg hn (le_of_lt h)
      have h2 : 0 ≤ netProfitOf orders cogsMap ads fixedEntries / revenueOf orders * 100 := by
        positivity
      linarith
    · rintro ⟨-, hn⟩
      exact mul_neg_of_neg_of_pos (div_neg_of_neg_of_pos hn h) (by norm_num)
  case isFalse h => simp [h]

/-- The losing-money error alert is generated exactly when the
profitMargin metric is negative. -/
lemma losing_mem_iff (m : AlertMetrics) :
    losingMoneyAlert ∈ generateAlerts m ↔ m.profitMargin < 0 := by
  unfold generateAlerts
  split_ifs with h1 h2 h3 h4 <;>
    simp_all [losingMoneyAlert, Alert.mk.injEq]

/-- C2 counterexample: on a day with zero revenue and a strictly
positive fixed cost, the net profit is negative and yet the error
alert does not fire (the profit margin is 0, not negative). -/
theorem c2_zero_revenue_counterexample :
    netProfitOf [] [] [] [monthlyRent300] < 0
    ∧ losingMoneyAlert ∉
        (calculateProfit "2024-01-01" none [] [] [] [monthlyRent300]).alerts := by
  constructor
  · have h : netProfitOf [] [] [] [monthlyRent300] = -10 := by with_unfolding_all rfl
    rw [h]; norm_num
  · have h : (calculateProfit "2024-01-01" none [] [] [] [monthlyRent300]).alerts = [] := by
      with_unfolding_all rfl
    rw [h]
    simp

/-- C2 (amended): the alerts list contains the losing-money error
alert if and only if the profit margin is negative, i.e. if and only
if revenue is positive AND net profit
(revenue - cogs - adSpend - fees - fixedCosts) is negative; on a day
with zero revenue and strictly positive costs the net profit is
negative but the alert does not fire. -/
theorem c2_losing_money_alert_iff :
    ∀ (date : String) (curr : Option String) (orders : List Order) (cogsMap : CogsMap)
      (ads : List AdSpendEntry) (fixedEntries : List FixedCostEntry),
      losingMoneyAlert ∈ (calculateProfit date curr orders cogsMap ads fixedEntries).alerts
        ↔ 0 < revenueOf orders ∧ netProfitOf orders cogsMap ads fixedEntries < 0 := by
  intro date curr orders cogsMap ads fixedEntries
  have h : (calculateProfit date curr orders cogsMap ads fixedEntries).alerts
      = generateAlerts
          ⟨cogsMissingOf orders cogsMap, cogsMatchedOf orders cogsMap,
           (extractLineItems orders).length, profitMarginOf orders cogsMap ads fixedEntries,
           totalAdSpendOf ads, revenueOf orders⟩ := rfl
  rw [h, losing_mem_iff]
  exact profitMargin_neg_iff orders cogsMap ads fixedEntries

/-! ## C1 -/

/-- C1 counterexample: the margin fields are rendered with toFixed(1),
so even on identical inputs the profitMargin string has 1 fraction
digit, not 2 as the claim states. -/
theorem c1_margin_not_two_decimals :
    (calculateProfit "2024-01-01" none [] [] [] []).profitMargin = "0.0"
    ∧ fracDigitCount ((calculateProfit "2024-01-01" none [] [] [] []).profitMargin) ≠ 2 := by
  have h : (calculateProfit "2024-01-01" none [] [] [] []).profitMargin = "0.0" := by
    with_unfolding_all rfl
  exact ⟨h, by rw [h]; decide⟩

/-- C1 (amended): for every fixed set of inputs, two invocations of
the daily profit computation produce identical ProfitReport values
field for field — byte-equal decimal strings for revenue, cogs,
adSpend, fees, fixedCosts, grossProfit, netProfit and both margins
(the monetary fields carry 2 fraction digits, the margins 1), and the
same alerts list. -/
theorem c1_determinism :
    ∀ (date : String) (curr : Option String) (orders : List Order) (cogsMap : CogsMap)
      (ads : List AdSpendEntry) (fixedEntries : List FixedCostEntry)
      (r1 r2 : ProfitReport),
      r1 = calculateProfit date curr orders cogsMap ads fixedEntries →
      r2 = calculateProfit date curr orders cogsMap ads fixedEntries →
      r1.revenue = r2.revenue ∧ r1.cogs = r2.cogs ∧ r1.adSpend = r2.adSpend
        ∧ r1.fees = r2.fees ∧ r1.fixedCosts = r2.fixedCosts
        ∧ r1.grossProfit = r2.grossProfit ∧ r1.netProfit = r2.netProfit
        ∧ r1.grossMargin = r2.grossMargin ∧ r1.profitMargin = r2.profitMargin
        ∧ r1.alerts = r2.alerts ∧ r1 = r2 := by
  intro date curr orders cogsMap ads fixedEntries r1 r2 h1 h2
  subst h1
  subst h2
  exact ⟨rfl, rfl, rfl, rfl, rfl, rfl, rfl, rfl, rfl, rfl, rfl⟩

/-- C1 witness: determinism applied at a concrete input. -/
theorem c1_witness :
    calculateProfit "2024-01-01" none [] [] [] [monthlyRent300]
      = calculateProfit "2024-01-01" none [] [] [] [monthlyRent300] :=
  (c1_determinism "2024-01-01" none [] [] [] [monthlyRent300]
    (calculateProfit "2024-01-01" none [] [] [] [monthlyRent300])
    (calculateProfit "2024-01-01" none [] [] [] [monthlyRent300])
    rfl rfl).2.2.2.2.2.2.2.2.2.2

/-! ## C5 -/

/-- The matched predicate as the claim words it: the lookup yields a
cost strictly greater than zero for the record's variant id (an absent
key, a missing variant id or a cost of exactly zero is not matched). -/
def specMatched (cogsMap : CogsMap) (i : LineItemRec) : Bool :=
  match i.variantId with
  | none => false
  | some v =>
    match List.lookup v cogsMap with
    | none => false
    | some c => decide (0 < c)

/-- The matched predicate agrees with the strict positivity test the
loop applies to the defaulted lookup. -/
lemma specMatched_iff_pos (cm : CogsMap) (i : LineItemRec) :
    specMatched cm i = true ↔ 0 < itemCogsOf cm i := by
  unfold specMatched itemCogsOf
  cases i.variantId with
  | none => simp
  | some v =>
    cases h : List.lookup v cm with
    | none => simp [h]
    | some c => simp [h]

/-- The COGS loop, unfolded to its declarative value: matched cost
total, matched count and missing count. -/
lemma cogsScan_foldl (cm : CogsMap) :
    ∀ (items : List LineItemRec) (a : ℚ) (mt mi : ℕ),
      items.foldl (cogsScanStep cm) (a, mt, mi)
        = (a + (((items.filter (specMatched cm)).map
              fun i => itemCogsOf cm i * (i.quantity : ℚ)).sum),
           mt + items.countP (specMatched cm),
           mi + items.countP fun i => ! specMatched cm i) := by
  intro items
  induction items with
  | nil => intro a mt mi; simp
  | cons i rest ih =>
    intro a mt mi
    rw [List.foldl_cons]
    by_cases h : 0 < itemCogsOf cm i
    · have hm : specMatched cm i = true := (specMatched_iff_pos cm i).mpr h
      have hstep : cogsScanStep cm (a, mt, mi) i
          = (a + itemCogsOf cm i * (i.quantity : ℚ), mt + 1, mi) := by
        simp [cogsScanStep, h]
      rw [hstep, ih]
      simp [List.filter_cons, List.countP_cons, hm, Prod.mk.injEq]
      refine ⟨by ring, by omega⟩
    · have hm : specMatched cm i = false := by
        cases hsm : specMatched cm i
        · rfl
        · exact absurd ((specMatched_iff_pos cm i).mp hsm) h
      have hstep : cogsScanStep cm (a, mt, mi) i = (a, mt, mi + 1) := by
        simp [cogsScanStep, h]
      rw [hstep, ih]
      simp [List.filter_cons, List.countP_cons, hm, Prod.mk.injEq]
      omega

/-- C5: a line item is matched exactly when the lookup yields a
strictly positive cost for its variant id; the COGS loop counts
matched and missing items that way and sums cost times quantity over
the matched items; and the report's cogsMatchRate is
matched / total x 100 (rendered with toFixed(1)), or "100" when the
flattened line-item list is empty. -/
theorem c5_cogs_matching :
    ∀ (cm : CogsMap) (items : List LineItemRec),
      (∀ i : LineItemRec, specMatched cm i = true
        ↔ ∃ v c, i.variantId = some v ∧ List.lookup v cm = some c ∧ 0 < c)
      ∧ (cogsScan cm items).2.1 = items.countP (specMatched cm)
      ∧ (cogsScan cm items).2.2 = items.countP (fun i => ! specMatched cm i)
      ∧ (cogsScan cm items).1
          = (((items.filter (specMatched cm)).map
              fun i => itemCogsOf cm i * (i.quantity : ℚ)).sum)
      ∧ ∀ (date : String) (curr : Option String) (orders : List Order)
          (ads : List AdSpendEntry) (fixedEntries : List FixedCostEntry),
          (calculateProfit date curr orders cm ads fixedEntries).cogsMatchRate
            = if 0 < (extractLineItems orders).length then
                toFixedQ 1 (((extractLineItems orders).countP (specMatched cm) : ℚ)
                  / ((extractLineItems orders).length : ℚ) * 100)
              else "100" := by
  intro cm items
  have hchar : ∀ i : LineItemRec, specMatched cm i = true
      ↔ ∃ v c, i.variantId = some v ∧ List.lookup v cm = some c ∧ 0 < c := by
    intro i
    unfold specMatched
    cases i.variantId with
    | none => simp
    | some v =>
      cases h : List.lookup v cm with
      | none => simp [h]
      | some c => simp [h]
  have hscan : cogsScan cm items
      = ((((items.filter (specMatched cm)).map
            fun i => itemCogsOf cm i * (i.quantity : ℚ)).sum),
         items.countP (specMatched cm),
         items.countP fun i => ! specMatched cm i) := by
    unfold cogsScan
    rw [cogsScan_foldl]
    simp
  have hmatched : ∀ orders : List Order,
      cogsMatchedOf orders cm = (extractLineItems orders).countP (specMatched cm) := by
    intro orders
    unfold cogsMatchedOf cogsScan
    rw [cogsScan_foldl]
    simp
  refine ⟨hchar, by rw [hscan], by rw [hscan], by rw [hscan], ?_⟩
  intro date curr orders ads fixedEntries
  have hrate : (calculateProfit date curr orders cm ads fixedEntries).cogsMatchRate
      = if 0 < (extractLineItems orders).length then
          toFixedQ 1 ((cogsMatchedOf orders cm : ℚ)
            / ((extractLineItems orders).length : ℚ) * 100)
        else "100" := rfl
  rw [hrate, hmatched]

/-! ## C6 -/

/-- Daily-equivalent contribution of one entry, per the fixed table of
the claim (daily x1, weekly /7, monthly /30, yearly /365); inactive or
unknown-frequency entries contribute nothing. -/
def specDailyContrib (e : FixedCostEntry) : ℚ :=
  if e.active = false then 0
  else if e.frequency = "daily" then e.amount
  else if e.frequency = "weekly" then e.amount / 7
  else if e.frequency = "monthly" then e.amount / 30
  else if e.frequency = "yearly" then e.amount / 365
  else 0

/-- Monthly-equivalent contribution of one entry, per the fixed table
(daily x30, weekly x4.33, monthly x1, yearly /12). -/
def specMonthlyContrib (e : FixedCostEntry) : ℚ :=
  if e.active = false then 0
  else if e.frequency = "daily" then e.amount * 30
  else if e.frequency = "weekly" then e.amount * (433/100)
  else if e.frequency = "monthly" then e.amount
  else if e.frequency = "yearly" then e.amount / 12
  else 0

/-- Yearly-equivalent contribution of one entry, per the fixed table
(daily x365, weekly x52, monthly x12, yearly x1). -/
def specYearlyContrib (e : FixedCostEntry) : ℚ :=
  if e.active = false then 0
  else if e.frequency = "daily" then e.amount * 365
  else if e.frequency = "weekly" then e.amount * 52
  else if e.frequency = "monthly" then e.amount * 12
  else if e.frequency = "yearly" then e.amount
  else 0

/-- The fixed-cost loop, unfolded to the per-entry contribution sums
at full precision. -/
lemma calculateTotals_foldl :
    ∀ (costs : List FixedCostEntry) (a b c : ℚ),
      costs.foldl costStep (a, b, c)
        = (a + (costs.map specDailyContrib).sum,
           b + (costs.map specMonthlyContrib).sum,
           c + (costs.map specYearlyContrib).sum) := by
  intro costs
  induction costs with
  | nil => intro a b c; simp
  | cons e rest ih =>
    intro a b c
    rw [List.foldl_cons]
    have hstep : costStep (a, b, c) e
        = (a + specDailyContrib e, b + specMonthlyContrib e, c + specYearlyContrib e) := by
      unfold costStep specDailyContrib specMonthlyContrib specYearlyContrib
      split_ifs <;> simp
    rw [hstep, ih]
    simp only [List.map_cons, List.sum_cons, Prod.mk.injEq]
    refine ⟨by ring, by ring, by ring⟩

/-- C6: the normalizer returns the three totals obtained by summing
each entry's conversion-table contribution at full precision
(inactive entries and unknown frequencies contribute nothing) and
rounding each total to 2 fraction digits only at the end; a single
active monthly entry of amount 300 yields daily 10, monthly 300,
yearly 3600. -/
theorem c6_fixed_cost_totals :
    (∀ costs : List FixedCostEntry,
      calculateTotals costs
        = ⟨round2 ((costs.map specDailyContrib).sum),
           round2 ((costs.map specMonthlyContrib).sum),
           round2 ((costs.map specYearlyContrib).sum)⟩)
    ∧ calculateTotals [monthlyRent300] = ⟨10, 300, 3600⟩
    ∧ getDailyFixedCost [monthlyRent300] = 10
    ∧ toFixedQ 2 (10 : ℚ) = "10.00" ∧ toFixedQ 2 (300 : ℚ) = "300.00"
    ∧ toFixedQ 2 (3600 : ℚ) = "3600.00" := by
  refine ⟨?_, by with_unfolding_all rfl, by with_unfolding_all rfl,
    by with_unfolding_all rfl, by with_unfolding_all rfl, by with_unfolding_all rfl⟩
  intro costs
  unfold calculateTotals
  rw [calculateTotals_foldl]
  simp

/-! ## C3 -/

/-- C3 counterexample: on the two stored reports with revenue 100 and
200 and net profit 10 and -5, the aggregated profitMargin string is
"1.7" (the margin is rendered with toFixed(1)), not "1.67". -/
theorem c3_margin_string_counterexample :
    (calculateProfitRange "2024-01-01" "2024-01-03" c3Store).toOption.map
      (fun r => r.totals.profitMargin) = some "1.7"
    ∧ ("1.7" : String) ≠ "1.67" :=
  ⟨by with_unfolding_all rfl, by decide⟩

/-- C3 (amended): with exactly two stored daily reports (revenue 100
and 200, net profit 10 and -5) inside a requested 3-day window, the
range aggregation returns totals revenue "300.00", netProfit "5.00",
profitMargin "1.7" — recomputed as summed net profit over summed
revenue times 100 and rendered with toFixed(1), not the toFixed(1) of
the average of the daily margins, which would be "3.8" — and daysCount
2, not 3. -/
theorem c3_range_aggregation :
    (calculateProfitRange "2024-01-01" "2024-01-03" c3Store).toOption.map
      (fun r => (r.totals.revenue, r.totals.netProfit, r.totals.profitMargin, r.daysCount))
      = some ("300.00", "5.00", "1.7", 2)
    ∧ toFixedQ 1 ((10 + (-5 : ℚ)) / (100 + 200) * 100) = "1.7"
    ∧ toFixedQ 1 (((10 : ℚ) / 100 * 100 + (-5 : ℚ) / 200 * 100) / 2) = "3.8"
    ∧ ("3.8" : String) ≠ "1.7" :=
  ⟨by with_unfolding_all rfl, by with_unfolding_all rfl,
   by with_unfolding_all rfl, by decide⟩

/-! ## C9 -/

/-- Transitivity of the lexicographic order on character lists. -/
lemma charListLe_trans :
    ∀ (a b c : List Char), charListLe a b = true → charListLe b c = true →
      charListLe a c = true := by
  intro a
  induction a with
  | nil => intro b c _ _; rfl
  | cons x xs ih =>
    intro b c hab hbc
    cases b with
    | nil => simp [charListLe] at hab
    | cons y ys =>
      cases c with
      | nil => simp [charListLe] at hbc
      | cons z zs =>
        simp only [charListLe] at hab hbc ⊢
        split_ifs at hab hbc ⊢ <;>
          first
          | rfl
          | omega
          | exact ih ys zs hab hbc

/-- Transitivity of the lexicographic order on strings. -/
lemma strLe_trans (a b c : String) :
    strLe a b = true → strLe b c = true → strLe a c = true :=
  charListLe_trans a.toList b.toList c.toList

/-- An inverted window matches no stored report. -/
lemma queryDays_empty (s e : String) (store : List DayRecord)
    (hse : strLe s e = false) : queryDays store s e = [] := by
  unfold queryDays
  rw [List.filter_eq_nil_iff]
  intro d _
  simp only [Bool.and_eq_true, not_and]
  intro h1 h2
  rw [strLe_trans s d.date e h1 h2] at hse
  exact absurd hse (by simp)

/-- C9 counterexample: a request whose start and end dates are both
well-formed but inverted is NOT rejected: the aggregation proceeds
against the store and returns an ok summary with daysCount 0. -/
theorem c9_inverted_range_counterexample :
    (calculateProfitRange "2024-01-03" "2024-01-01" c9Store).toOption.map
      (fun r => r.daysCount) = some 0
    ∧ calculateProfitRange "2024-01-03" "2024-01-01" c9Store
        ≠ .error "Invalid date format" := by
  constructor
  · with_unfolding_all rfl
  · have h : (calculateProfitRange "2024-01-03" "2024-01-01" c9Store).toOption.map
        (fun r => r.daysCount) = some 0 := by with_unfolding_all rfl
    intro hcontra
    rw [hcontra] at h
    exact absurd h (by simp [Except.toOption])

/-- C9 (amended): an inverted range of two well-formed dates passes
the date-format validation (only malformed dates are rejected), the
store query matches no report because the inclusive window is empty,
and the aggregation returns an ok summary with daysCount 0 and zero
totals. -/
theorem c9_inverted_range (s e : String) (store : List DayRecord)
    (hs : isValidDate s = true) (he : isValidDate e = true)
    (hse : strLe s e = false) :
    calculateProfitRange s e store
      = .ok ⟨s, e, 0, [],
          ⟨"0.00", "0.00", "0.00", "0.00", "0.00", "0.00", "0.0", 0, true⟩⟩ := by
  unfold calculateProfitRange
  rw [hs, he]
  simp only [Bool.not_true, Bool.or_self, Bool.false_eq_true, if_false]
  rw [queryDays_empty s e store hse]
  have h0 : ([] : List DayRecord).foldl rangeStep ⟨0, 0, 0, 0, 0, 0, 0⟩
      = (⟨0, 0, 0, 0, 0, 0, 0⟩ : RangeAcc) := rfl
  simp only [h0, List.length_nil]
  have h1 : (⟨"0.00", "0.00", "0.00", "0.00", "0.00", "0.00", "0.0", 0, true⟩ : RangeTotals)
      = ⟨toFixedQ 2 0, toFixedQ 2 0, toFixedQ 2 0, toFixedQ 2 0, toFixedQ 2 0,
         toFixedQ 2 0, toFixedQ 1 (if (0:ℚ) < 0 then 0 / 0 * 100 else 0), 0,
         decide ((0:ℚ) ≤ 0)⟩ := by with_unfolding_all rfl
  rw [h1]

/-- C9 witness: the amended statement at the concrete inverted window
2024-01-03 to 2024-01-01 over the one-report store. -/
theorem c9_witness :
    calculateProfitRange "2024-01-03" "2024-01-01" c9Store
      = .ok ⟨"2024-01-03", "2024-01-01", 0, [],
          ⟨"0.00", "0.00", "0.00", "0.00", "0.00", "0.00", "0.0", 0, true⟩⟩ :=
  c9_inverted_range "2024-01-03" "2024-01-01" c9Store (by decide) (by decide) (by decide)

end ProfitLens
